import Mathlib

/-!
Verification of the airflow scheduling-core specification against the
repository source.  Each source function used by a claim is shallowly
embedded as an executable Lean definition; components of the repository
whose code is not shipped under src/ (the pool allocator, dependency
evaluator and DagRun manager live elsewhere in the tree) are modelled
from the specification text and marked as such in their doc comments.
Datetimes are embedded as natural-number timestamps, dictionaries as
association lists, and Python exceptions as Except values.
-/

namespace Airflow

/-- Modelled from the spec: the enum airflow.utils.state.DagRunState is not
under src/; the spec data model says the state of a DagRun is one of
QUEUED, RUNNING, SUCCESS, FAILED. -/
inductive DagRunState where
  | queued
  | running
  | success
  | failed
deriving DecidableEq, Repr, Fintype

/-- Modelled from the spec: a DagRun is terminal once SUCCESS or FAILED. -/
def DagRunState.isTerminal : DagRunState → Bool
  | .success => true
  | .failed => true
  | _ => false

/-- Embeds DAGRunPatchStates from
src/airflow/api_fastapi/core_api/datamodels/dag_run.py: the enum of DAG Run
states allowed when updating a DAG Run, with members QUEUED, SUCCESS, FAILED
taken from DagRunState. -/
inductive DAGRunPatchStates where
  | queued
  | success
  | failed
deriving DecidableEq, Repr, Fintype

/-- The DagRunState value each DAGRunPatchStates member is assigned from in
the source (the Python enum members are DagRunState values). -/
def DAGRunPatchStates.toDagRunState : DAGRunPatchStates → DagRunState
  | .queued => .queued
  | .success => .success
  | .failed => .failed

/-- Embeds DAGRunPatchBody from
src/airflow/api_fastapi/core_api/datamodels/dag_run.py: the PATCH request
body, carrying an optional DAGRunPatchStates state and an optional note. -/
structure DAGRunPatchBody where
  state : Option DAGRunPatchStates
  note : Option String
deriving DecidableEq, Repr

/-- Embeds DAGRunClearBody from
src/airflow/api_fastapi/core_api/datamodels/dag_run.py. -/
structure DAGRunClearBody where
  dry_run : Bool := true
  only_failed : Bool := false
deriving DecidableEq, Repr

/-- Modelled from the spec: the PATCH dag_run endpoint handler is not under
src/ (only its request datamodel is).  Spec section 6 says the control
surface issues mark_state commands "that the core must accept as external
state-mutation requests"; the request body under src/ restricts the
requested state to DAGRunPatchStates.  Applying a patch whose body carries a
state installs that state; a body with no state leaves the run unchanged. -/
def patch_dag_run (current : DagRunState) (body : DAGRunPatchBody) : DagRunState :=
  match body.state with
  | some s => s.toDagRunState
  | none => current

/-- Embeds DAGRunResponse from
src/airflow/api_fastapi/core_api/datamodels/dag_run.py, datetimes as Nat
timestamps; fields typed `datetime | None` in the source are Options. -/
structure DAGRunResponse where
  dag_run_id : String
  dag_id : String
  logical_date : Option Nat
  queued_at : Option Nat
  start_date : Option Nat
  end_date : Option Nat
  data_interval_start : Option Nat
  data_interval_end : Option Nat
  run_after : Nat
  last_scheduling_decision : Option Nat
  state : DagRunState
  external_trigger : Bool
  conf : List (String × String)
  note : Option String
deriving DecidableEq, Repr

/-- Embeds TriggerDAGRunPostBody from
src/airflow/api_fastapi/core_api/datamodels/dag_run.py: the POST body for
triggering a DAG run.  logical_date is `AwareDatetime | None`, a required
but nullable field. -/
structure TriggerDAGRunPostBody where
  dag_run_id : Option String
  data_interval_start : Option Nat
  data_interval_end : Option Nat
  logical_date : Option Nat
  run_after : Nat
  conf : List (String × String)
  note : Option String
deriving DecidableEq, Repr

/-- Embeds TriggerDAGRunPostBody.check_data_intervals: raises ValueError when
exactly one of data_interval_start and data_interval_end is None, otherwise
returns the values unchanged. -/
def check_data_intervals (values : TriggerDAGRunPostBody) :
    Except String TriggerDAGRunPostBody :=
  if (values.data_interval_start.isNone) != (values.data_interval_end.isNone) then
    .error
      "Either both data_interval_start and data_interval_end must be provided or both must be None"
  else
    .ok values

/-- Modelled from the spec: DagRun.generate_run_id is not under src/; the
source comment above validate_dag_run_id says that when logical date is
null the run id should be generated from run_after plus a random string.
We model it as a deterministic manual run id built from the logical date
when present, else from run_after. -/
def generate_run_id (logical_date : Option Nat) (run_after : Nat) : String :=
  match logical_date with
  | some l => "manual__" ++ toString l
  | none => "manual__" ++ toString run_after

/-- Embeds TriggerDAGRunPostBody.validate_dag_run_id: when dag_run_id is
falsy (None or the empty string) it is filled in from generate_run_id. -/
def validate_dag_run_id (b : TriggerDAGRunPostBody) : TriggerDAGRunPostBody :=
  if b.dag_run_id = none ∨ b.dag_run_id = some "" then
    { b with dag_run_id := some (generate_run_id b.logical_date b.run_after) }
  else
    b

/-- The pydantic validation pipeline of TriggerDAGRunPostBody: the two
model_validator methods run in declaration order after field parsing. -/
def validateTriggerBody (b : TriggerDAGRunPostBody) :
    Except String TriggerDAGRunPostBody :=
  (check_data_intervals b).map validate_dag_run_id

/-- Modelled from the spec: the task-instance state machine code is not
under src/; spec section 4.2 lists the TaskInstance states. -/
inductive TIState where
  | none_
  | scheduled
  | queued
  | running
  | deferred
  | up_for_retry
  | up_for_reschedule
  | success
  | failed
  | skipped
  | upstream_failed
  | removed
deriving DecidableEq, Repr, Fintype

/-- Modelled from the spec: terminal TaskInstance states per section 4.2
(SUCCESS, FAILED with retries exhausted, SKIPPED, UPSTREAM_FAILED, REMOVED);
UPSTREAM_FAILED is "done but not executed" for downstream evaluation. -/
def TIState.isTerminal : TIState → Bool
  | .success => true
  | .failed => true
  | .skipped => true
  | .upstream_failed => true
  | .removed => true
  | _ => false

/-- Modelled from the spec: a leaf in a "done-success-compatible" terminal
state per section 4.7 (SUCCESS or SKIPPED). -/
def TIState.doneSuccessCompatible : TIState → Bool
  | .success => true
  | .skipped => true
  | _ => false

/-- Modelled from the spec: the DagRun Manager function
evaluate(dag, dag_run, task_instances) is not under src/; section 4.7
defines it as a pure aggregation of the TaskInstance states: RUNNING while
any instance is non-terminal, SUCCESS when every leaf node is
done-success-compatible, FAILED otherwise.  The aggregation is a function
of the task-instance states alone; the current state of the run is not
consulted.  allTis are the states of every TaskInstance of the run,
leafTis those of its leaf nodes. -/
def evaluate (runState : DagRunState) (allTis leafTis : List TIState) :
    DagRunState :=
  let _ := runState
  if allTis.any (fun t => ! t.isTerminal) then .running
  else if leafTis.all TIState.doneSuccessCompatible then .success
  else .failed

/-- Modelled from the spec: the closed set of trigger rules of section 4.1. -/
inductive TriggerRule where
  | all_success
  | all_failed
  | all_done
  | one_success
  | one_failed
  | none_failed
  | none_skipped
  | always
deriving DecidableEq, Repr, Fintype

/-- Modelled from the spec: the output domain of the Dependency Evaluator. -/
inductive DepResult where
  | satisfied
  | pending
  | unsatisfiable
deriving DecidableEq, Repr, Fintype

/-- A failed-like upstream outcome (FAILED or UPSTREAM_FAILED). -/
def TIState.isFailedLike : TIState → Bool
  | .failed => true
  | .upstream_failed => true
  | _ => false

/-- Modelled from the spec: the Dependency Evaluator is not under src/;
section 4.1 defines it as a pure function of the trigger rule of a node and its
direct upstream TaskInstance states, returning satisfied, pending or
unsatisfiable, with "Nodes with no upstream are always satisfied". -/
def evalDeps (rule : TriggerRule) (upstream : List TIState) : DepResult :=
  if upstream.isEmpty then .satisfied
  else
    match rule with
    | .always => .satisfied
    | .all_success =>
        if upstream.all (· = .success) then .satisfied
        else if upstream.any (fun t => t.isTerminal && ! (t = .success)) then
          .unsatisfiable
        else .pending
    | .all_failed =>
        if upstream.all (· = .failed) then .satisfied
        else if upstream.any (fun t => t.isTerminal && ! (t = .failed)) then
          .unsatisfiable
        else .pending
    | .all_done =>
        if upstream.all TIState.isTerminal then .satisfied else .pending
    | .one_success =>
        if upstream.any (· = .success) then .satisfied
        else if upstream.all TIState.isTerminal then .unsatisfiable
        else .pending
    | .one_failed =>
        if upstream.any (· = .failed) then .satisfied
        else if upstream.all TIState.isTerminal then .unsatisfiable
        else .pending
    | .none_failed =>
        if upstream.any TIState.isFailedLike then .unsatisfiable
        else if upstream.all TIState.isTerminal then .satisfied
        else .pending
    | .none_skipped =>
        if upstream.any (· = .skipped) then .unsatisfiable
        else if upstream.all TIState.isTerminal then .satisfied
        else .pending

/-- Modelled from the spec: the Pool Allocator is not under src/; section 3
gives a pool a total slot capacity and a count of slots currently
allocated. -/
structure Pool where
  capacity : Nat
  allocated : Nat
deriving DecidableEq, Repr

/-- Modelled from the spec: one atomic pool operation of section 4.3,
try_acquire(pool_name, slots, priority_weight) or
release(pool_name, slots), acting on a single pool. -/
inductive PoolOp where
  | tryAcquire (slots priority_weight : Nat)
  | release (slots : Nat)
deriving DecidableEq, Repr

/-- Modelled from the spec: atomic application of one pool operation.
try_acquire grants (and allocates) only when the allocation would stay
within capacity, else it is denied and the pool is unchanged (the denied
request joins the wait set, which holds no slots); release returns slots. -/
def Pool.applyOp (p : Pool) : PoolOp → Pool
  | .tryAcquire slots _ =>
      if p.allocated + slots ≤ p.capacity then
        { p with allocated := p.allocated + slots }
      else p
  | .release slots => { p with allocated := p.allocated - slots }

/-- A sequence of atomic pool operations applied in order: since every
operation is atomic, any concurrent interleaving of try_acquire and
release calls is one such sequence. -/
def Pool.runOps (p : Pool) (ops : List PoolOp) : Pool :=
  ops.foldl Pool.applyOp p

/-- Python source_path.count over the wildcard character of
src/providers/google/src/airflow/providers/google/cloud/transfers/sftp_to_gcs.py
(WILDCARD is the single character star). -/
def countWildcards (s : String) : Nat :=
  s.toList.count '*'

/-- Python str.split(WILDCARD, 1): the part before the first star and the
part after it (the source unpacks them as the tree-map lookup root and
delimiter). -/
def splitAtFirstStar : List Char → List Char × List Char
  | [] => ([], [])
  | c :: cs =>
      if c = '*' then ([], cs)
      else
        let p := splitAtFirstStar cs
        (c :: p.1, p.2)

/-- Python str.rstrip applied to the slash character. -/
def rstripSlash (cs : List Char) : List Char :=
  (cs.reverse.dropWhile (· = '/')).reverse

/-- Python os.path.dirname (posixpath): everything up to and including the
last slash, with trailing slashes stripped unless the head is empty or all
slashes. -/
def dirname (cs : List Char) : List Char :=
  let head := (cs.reverse.dropWhile (· ≠ '/')).reverse
  if head ≠ [] ∧ ¬ head.all (· = '/') then rstripSlash head else head

/-- Whether the first list is a leading segment of the second. -/
def leadsWith : List Char → List Char → Bool
  | [], _ => true
  | _ :: _, [] => false
  | a :: as, b :: bs => a = b && leadsWith as bs

/-- Python str.replace(old, new, 1): replace the first occurrence of old by
new (an empty old matches at the very front, as in Python). -/
def replaceFirst (old new : List Char) : List Char → List Char
  | [] => if old = [] then new else []
  | c :: cs =>
      if leadsWith old (c :: cs) then new ++ (c :: cs).drop old.length
      else c :: replaceFirst old new cs

/-- Python s.rsplit over the slash with maxsplit 1, index 1: the part after
the last slash; none when the string has no slash (Python raises IndexError
in that case). -/
def rsplitSlashTail (cs : List Char) : Option (List Char) :=
  if cs.contains '/' then some ((cs.reverse.takeWhile (· ≠ '/')).reverse)
  else none

/-- Embeds SFTPToGCSOperator._set_destination_path: None becomes the empty
string; a path starting with a slash has its leading slashes stripped. -/
def set_destination_path (path : Option String) : String :=
  match path with
  | some p => if leadsWith ['/'] p.toList then ⟨p.toList.dropWhile (· = '/')⟩ else p
  | none => ""

/-- Embeds SFTPToGCSOperator._set_bucket_name: a leading gs:// scheme is
removed and surrounding slashes are stripped. -/
def set_bucket_name (name : String) : String :=
  let n := if leadsWith "gs://".toList name.toList then name.toList.drop 5 else name.toList
  ⟨rstripSlash (n.dropWhile (· = '/'))⟩

/-- The exceptions SFTPToGCSOperator.execute can raise in its path logic:
the AirflowException "Only one wildcard is allowed in source_path
parameter. Found (total) in (source_path)." raised when more than one
wildcard occurs, and the Python IndexError raised by rsplit indexing when a
wildcard-free source_path has no slash and destination_path is empty. -/
inductive ExecError where
  | wildcardException (total : Nat) (source_path : String)
  | indexError
deriving DecidableEq, Repr

/-- Embeds the control flow of SFTPToGCSOperator.execute as a pure transfer
plan: given source_path, the destination_path of the operator and the file
list that get_tree_map of the SFTP hook would return for the wildcard
branch, it
yields either the raised exception or the ordered list of
(source file, destination object) copies handed to _copy_single_object.
The GCS/SFTP hooks themselves are external collaborators. -/
def executePlan (source_path : String) (destination_path : Option String)
    (treeFiles : List String) : Except ExecError (List (String × String)) :=
  let destPath := set_destination_path destination_path
  if 0 < countWildcards source_path then
    let total := countWildcards source_path
    if 1 < total then
      .error (.wildcardException total source_path)
    else
      let pd := splitAtFirstStar source_path.toList
      let base_path := dirname pd.1
      .ok (treeFiles.map (fun file =>
        let d := replaceFirst base_path destPath.toList file.toList
        let d := if destPath = "" then d.dropWhile (· = '/') else d
        (file, String.mk d)))
  else
    if destPath ≠ "" then .ok [(source_path, destPath)]
    else
      match rsplitSlashTail source_path.toList with
      | some tailPart => .ok [(source_path, String.mk tailPart)]
      | none => .error .indexError

/-- Embeds internal_api_call from src/airflow/api_internal/internal_api_call.py:
the decorator wraps func in a wrapper that returns func(*args, **kwargs).
Python callables that may raise are embedded as functions into Except. -/
def internal_api_call {α ε β : Type} (func : α → Except ε β) :
    α → Except ε β :=
  fun args => func args

/-- Modelled from the spec: resetting the cleared subset of task instances
to NONE, per section 4.7.  The mask marks which task instances the clear
request selects, positionally; when only_failed is set, only failed-like
instances among the selected ones are reset. -/
def resetTis (only_failed : Bool) (mask : List Bool) (tis : List TIState) :
    List TIState :=
  List.zipWith
    (fun m t =>
      if m && (! only_failed || t.isFailedLike) then TIState.none_ else t)
    mask tis

/-- Modelled from the spec: the clear endpoint handler is not under src/
(only its DAGRunClearBody request datamodel is).  Section 4.7: a manual
clear resets the cleared task instances to NONE and the run state is
re-aggregated by the DagRun Manager without re-creating the DagRun; a
dry_run request reports what would be cleared and changes nothing. -/
def clear_dag_run (current : DagRunState) (body : DAGRunClearBody)
    (allMask leafMask : List Bool) (allTis leafTis : List TIState) :
    DagRunState :=
  if body.dry_run then current
  else
    evaluate current (resetTis body.only_failed allMask allTis)
      (resetTis body.only_failed leafMask leafTis)

/-- C1 counterexample: the claim says no external state-mutation request can
set a DagRun state to a value other than a cancellation outcome, but the
PATCH request body admits state QUEUED, and applying such a request to a
running DagRun installs QUEUED, a non-terminal state, which therefore
cannot be a cancellation outcome (a cancellation ends the run). -/
theorem c1_counterexample :
    patch_dag_run DagRunState.running
        { state := some DAGRunPatchStates.queued, note := none }
      = DagRunState.queued
    ∧ DagRunState.isTerminal DagRunState.queued = false :=
  ⟨rfl, rfl⟩

/-- C1 (amended): an external PATCH request with a state installs exactly
the requested state, and the PATCH-settable DagRun states are exactly
QUEUED, SUCCESS and FAILED (every state except RUNNING), so external state
mutation is not limited to cancellation outcomes. -/
theorem c1_patch_settable_states :
    (∀ (current : DagRunState) (p : DAGRunPatchStates) (n : Option String),
        patch_dag_run current { state := some p, note := n }
          = p.toDagRunState)
    ∧ ∀ s : DagRunState,
        (∃ p : DAGRunPatchStates, p.toDagRunState = s) ↔ s ≠ DagRunState.running :=
  ⟨fun _ _ _ => rfl, by decide⟩

/-- C2 counterexample: SUCCESS is terminal, yet an external PATCH request
carrying state QUEUED changes a successful DagRun state to QUEUED, so a
subsequent operation can change a terminal state. -/
theorem c2_counterexample :
    DagRunState.isTerminal DagRunState.success = true
    ∧ patch_dag_run DagRunState.success
        { state := some DAGRunPatchStates.queued, note := none }
      ≠ DagRunState.success := by
  exact ⟨rfl, by decide⟩

/-- C2 (amended): once SUCCESS or FAILED, a DagRun state can still be
changed by external requests: a PATCH carrying a state installs exactly the
requested state (QUEUED, SUCCESS or FAILED), and a non-dry-run clear
request that resets some task instance to NONE re-aggregates the run to
RUNNING; a PATCH carrying no state and a dry-run clear leave the terminal
state unchanged. -/
theorem c2_terminal_not_immutable
    (current : DagRunState) (b : DAGRunPatchBody) (body : DAGRunClearBody)
    (allMask leafMask : List Bool) (allTis leafTis : List TIState)
    (h : current.isTerminal = true) :
    (∀ p : DAGRunPatchStates,
        b.state = some p → patch_dag_run current b = p.toDagRunState)
    ∧ (b.state = none → patch_dag_run current b = current)
    ∧ (body.dry_run = true →
        clear_dag_run current body allMask leafMask allTis leafTis = current)
    ∧ (body.dry_run = false →
        TIState.none_ ∈ resetTis body.only_failed allMask allTis →
        clear_dag_run current body allMask leafMask allTis leafTis
          = DagRunState.running) := by
  refine ⟨fun p hp => by simp [patch_dag_run, hp],
    fun hb => by simp [patch_dag_run, hb],
    fun hd => by simp [clear_dag_run, hd],
    fun hd hm => ?_⟩
  have hany : (resetTis body.only_failed allMask allTis).any
      (fun t => ! t.isTerminal) = true :=
    List.any_eq_true.mpr ⟨TIState.none_, hm, rfl⟩
  simp [clear_dag_run, hd, evaluate, hany]

/-- Witness for C2 (amended): on a successful DagRun of one succeeded task
instance, a PATCH carrying QUEUED installs QUEUED and a non-dry-run clear
of that instance returns the run to RUNNING. -/
theorem c2_terminal_not_immutable_witness :
    patch_dag_run DagRunState.success
        { state := some DAGRunPatchStates.queued, note := none }
      = DagRunState.queued
    ∧ clear_dag_run DagRunState.success
        { dry_run := false, only_failed := false } [true] [true]
        [TIState.success] [TIState.success]
      = DagRunState.running :=
  ⟨(c2_terminal_not_immutable DagRunState.success
      { state := some DAGRunPatchStates.queued, note := none }
      { dry_run := false, only_failed := false } [true] [true]
      [TIState.success] [TIState.success] rfl).1
      DAGRunPatchStates.queued rfl,
   (c2_terminal_not_immutable DagRunState.success
      { state := some DAGRunPatchStates.queued, note := none }
      { dry_run := false, only_failed := false } [true] [true]
      [TIState.success] [TIState.success] rfl).2.2.2 rfl (by decide)⟩

/-- C3: every DagRun state is one of QUEUED, RUNNING, SUCCESS, FAILED; every
state a PATCH request body can carry maps into that set; and the
PATCH-settable subset is exactly QUEUED, SUCCESS, FAILED. -/
theorem c3_state_domain :
    (∀ s : DagRunState,
        s = DagRunState.queued ∨ s = DagRunState.running
        ∨ s = DagRunState.success ∨ s = DagRunState.failed)
    ∧ (∀ p : DAGRunPatchStates,
        p.toDagRunState = DagRunState.queued
        ∨ p.toDagRunState = DagRunState.success
        ∨ p.toDagRunState = DagRunState.failed)
    ∧ (∀ s : DagRunState,
        (∃ p : DAGRunPatchStates, p.toDagRunState = s)
        ↔ (s = DagRunState.queued ∨ s = DagRunState.success
            ∨ s = DagRunState.failed)) := by
  decide

/-- C4: starting from any pool satisfying the invariant, any sequence of
atomic try_acquire and release operations (hence any concurrent
interleaving of them) keeps the allocated slots within capacity. -/
theorem c4_pool_invariant (p : Pool) (ops : List PoolOp)
    (h : p.allocated ≤ p.capacity) :
    (Pool.runOps p ops).allocated ≤ (Pool.runOps p ops).capacity := by
  induction ops generalizing p with
  | nil => exact h
  | cons op rest ih =>
      simp only [Pool.runOps, List.foldl] at *
      refine ih (p.applyOp op) ?_
      cases op with
      | tryAcquire slots w =>
          simp only [Pool.applyOp]
          split
          · simpa using by omega
          · exact h
      | release slots =>
          simp only [Pool.applyOp]
          omega

/-- Witness for C4 at a pool of capacity 2 and a concrete operation
sequence that includes a denied acquisition. -/
theorem c4_pool_invariant_witness :
    (Pool.mk 2 0).allocated ≤ (Pool.mk 2 0).capacity
    ∧ (Pool.runOps (Pool.mk 2 0)
          [PoolOp.tryAcquire 1 5, PoolOp.tryAcquire 2 3,
           PoolOp.release 1, PoolOp.tryAcquire 2 1]).allocated
        ≤ (Pool.runOps (Pool.mk 2 0)
          [PoolOp.tryAcquire 1 5, PoolOp.tryAcquire 2 3,
           PoolOp.release 1, PoolOp.tryAcquire 2 1]).capacity :=
  ⟨by decide,
   c4_pool_invariant (Pool.mk 2 0)
     [PoolOp.tryAcquire 1 5, PoolOp.tryAcquire 2 3,
      PoolOp.release 1, PoolOp.tryAcquire 2 1] (by decide)⟩

/-- C5: the DagRun Manager aggregation is pure and idempotent: for a DagRun
already in a terminal state, feeding the evaluated state back into evaluate
returns the same state (evaluate applied twice equals evaluate applied
once), because the aggregation depends only on the task-instance states. -/
theorem c5_evaluate_idempotent (s : DagRunState)
    (allTis leafTis : List TIState) (h : s.isTerminal = true) :
    evaluate (evaluate s allTis leafTis) allTis leafTis
      = evaluate s allTis leafTis :=
  rfl

/-- Witness for C5 at a successful run of one succeeded task instance. -/
theorem c5_evaluate_idempotent_witness :
    DagRunState.isTerminal DagRunState.success = true
    ∧ evaluate (evaluate DagRunState.success [TIState.success] [TIState.success])
          [TIState.success] [TIState.success]
        = evaluate DagRunState.success [TIState.success] [TIState.success] :=
  ⟨rfl,
   c5_evaluate_idempotent DagRunState.success [TIState.success]
     [TIState.success] rfl⟩

/-- C6: for every trigger rule, the Dependency Evaluator returns satisfied
on a node with no upstream task instances. -/
theorem c6_no_upstream_satisfied :
    ∀ rule : TriggerRule, evalDeps rule [] = DepResult.satisfied := by
  decide

/-- C7 counterexample: a trigger_dag_run request carrying logical_date None
passes the full validation pipeline and is accepted with its logical
timestamp still null (the run id being generated from run_after), so a
DagRun record created by an external trigger request need not have a
non-null logical timestamp. -/
theorem c7_counterexample :
    validateTriggerBody
        { dag_run_id := none, data_interval_start := none,
          data_interval_end := none, logical_date := none,
          run_after := 7, conf := [], note := none }
      = Except.ok
        { dag_run_id := some "manual__7", data_interval_start := none,
          data_interval_end := none, logical_date := none,
          run_after := 7, conf := [], note := none } := by
  rfl

/-- C7 (amended): every DagRun record carries a logical timestamp
attribute, but it is nullable: trigger request validation accepts the
logical_date exactly as supplied, null included, and always yields a
non-null run id. -/
theorem c7_logical_date_nullable (b r : TriggerDAGRunPostBody)
    (h : validateTriggerBody b = Except.ok r) :
    r.logical_date = b.logical_date ∧ r.dag_run_id ≠ none := by
  unfold validateTriggerBody check_data_intervals at h
  split at h
  · simp [Except.map] at h
  · simp only [Except.map] at h
    cases h
    unfold validate_dag_run_id
    split
    · exact ⟨rfl, by simp⟩
    · next hcond =>
        push_neg at hcond
        exact ⟨rfl, hcond.1⟩

/-- Witness for C7 (amended) at a fully populated trigger request body. -/
theorem c7_logical_date_nullable_witness :
    ({ dag_run_id := some "run1", data_interval_start := some 1,
       data_interval_end := some 2, logical_date := some 3,
       run_after := 7, conf := [], note := none } :
        TriggerDAGRunPostBody).logical_date
      = ({ dag_run_id := some "run1", data_interval_start := some 1,
           data_interval_end := some 2, logical_date := some 3,
           run_after := 7, conf := [], note := none } :
            TriggerDAGRunPostBody).logical_date
    ∧ ({ dag_run_id := some "run1", data_interval_start := some 1,
         data_interval_end := some 2, logical_date := some 3,
         run_after := 7, conf := [], note := none } :
          TriggerDAGRunPostBody).dag_run_id ≠ none :=
  c7_logical_date_nullable
    { dag_run_id := some "run1", data_interval_start := some 1,
      data_interval_end := some 2, logical_date := some 3,
      run_after := 7, conf := [], note := none }
    { dag_run_id := some "run1", data_interval_start := some 1,
      data_interval_end := some 2, logical_date := some 3,
      run_after := 7, conf := [], note := none }
    (by rfl)

/-- C8: interval validation of a trigger request body raises the ValueError
exactly when one of data_interval_start and data_interval_end is None and
the other is not; otherwise it returns the body unchanged. -/
theorem c8_check_data_intervals_iff (b : TriggerDAGRunPostBody) :
    (check_data_intervals b
        = Except.error
          "Either both data_interval_start and data_interval_end must be provided or both must be None"
      ↔ b.data_interval_start.isNone ≠ b.data_interval_end.isNone)
    ∧ (check_data_intervals b = Except.ok b
      ↔ b.data_interval_start.isNone = b.data_interval_end.isNone) := by
  unfold check_data_intervals
  by_cases hc : b.data_interval_start.isNone = b.data_interval_end.isNone
  · rw [if_neg (by simp [hc])]
    simp [hc]
  · rw [if_pos (by simpa using hc)]
    simp [hc]

/-- C9: the wildcard check of SFTPToGCSOperator.execute raises the
AirflowException exactly when source_path contains at least two wildcard
characters, before any transfer is planned; the exception reports the
wildcard count and the path.  With at most one wildcard no such exception
arises. -/
theorem c9_wildcard_check (source_path : String)
    (destination_path : Option String) (treeFiles : List String)
    (n : Nat) (p : String) :
    executePlan source_path destination_path treeFiles
        = Except.error (ExecError.wildcardException n p)
      ↔ (2 ≤ countWildcards source_path
          ∧ n = countWildcards source_path ∧ p = source_path) := by
  simp only [executePlan]
  split
  · next h0 =>
      split
      · next h1 =>
          constructor
          · intro he
            injection he with he
            injection he with h2 h3
            exact ⟨by omega, h2.symm, h3.symm⟩
          · rintro ⟨-, rfl, rfl⟩
            rfl
      · next h1 =>
          simp only [reduceCtorEq, false_iff]
          omega
  · next h0 =>
      split
      · simp only [reduceCtorEq, false_iff]
        omega
      · split
        · simp only [reduceCtorEq, false_iff]
          omega
        · constructor
          · intro he
            injection he with he
            exact absurd he (by simp)
          · intro hn
            omega

/-- C10: the internal_api_call decorator is the identity on behaviour: the
wrapped callable returns exactly what the original callable returns on the
same arguments, raised exceptions included (embedded in Except). -/
theorem c10_internal_api_call_identity {α ε β : Type}
    (func : α → Except ε β) (args : α) :
    internal_api_call func args = func args :=
  rfl

end Airflow
